import Mathlib

/-!
# Verification of the Ayronia authentication / authorization core

Shallow embedding of the serverless auth handlers
(`src/netlify/functions/*.mts` and the unnamed handler files) into Lean 4.

Modelling conventions:
* The external blob store is modelled per request: each handler receives the
  current value stored at the (single) key it touches as an `Option` argument
  and returns the value stored there after the call.  Where a claim needs a
  second lookup for the same token, sessions are modelled as a whole store
  `String → Option Session`.
* `Date.now()` is a `Nat` millisecond timestamp passed in as `now`.
* `crypto.subtle.digest("SHA-256", ·)` rendered as hex (the `hashPassword`
  helper duplicated across the handlers) is modelled as an abstract function
  parameter `hashPassword : String → String`.
* `Math.random()` is modelled by the integer `k = ⌊Math.random() * 900000⌋`,
  so `Math.floor(100000 + Math.random() * 900000)` is exactly `100000 + k`
  with `k < 900000`.
* JS falsiness checks on strings (`!data.email` …) are `= ""` checks, and a
  possibly-`undefined` field is an `Option`.
-/

namespace Ayronia

/-! ## Data model, from `src/netlify/functions/shared/types.mts` -/

/-- `type UserRole = 'cliente' | 'administrador' | 'supervisor' | 'entregador'`. -/
inductive UserRole where
  | cliente
  | administrador
  | supervisor
  | entregador
deriving DecidableEq

/-- `interface User` (shared/types.mts).  `role` is an `Option` because records
written by the handlers that declare their own role-less `User` interface
(e.g. auth-reset-password.mts) may lack the field; login reads it as
`user.role || 'cliente'`. -/
structure User where
  id : String
  name : String
  email : String
  phone : String
  passwordHash : String
  verified : Bool
  role : Option UserRole
  createdAt : String
deriving DecidableEq

/-- `interface Session`.  `role` is an `Option`: the sessions written by the
verify-otp and reset-password handlers carry no `role` field. -/
structure Session where
  userId : String
  email : String
  name : String
  role : Option UserRole
  createdAt : Nat
  expiresAt : Nat
deriving DecidableEq

/-- `interface OTPData` (shared/types.mts and verify-otp handler). -/
structure OTPData where
  code : String
  email : String
  expiresAt : Nat
  attempts : Nat
deriving DecidableEq

/-- `interface PasswordResetData` (auth-reset-password.mts,
auth-request-password-reset.mts). -/
structure PasswordResetData where
  code : String
  email : String
  expiresAt : Nat
  attempts : Nat
deriving DecidableEq

/-- `isAdminRole` (shared/types.mts line 106): `role === 'administrador'`. -/
def isAdminRole (role : UserRole) : Bool :=
  role == .administrador

/-- `canManageOrders` (shared/types.mts line 111):
`role === 'administrador' || role === 'supervisor'`. -/
def canManageOrders (role : UserRole) : Bool :=
  role == .administrador || role == .supervisor

/-- `isDeliveryRole` (shared/types.mts line 116). -/
def isDeliveryRole (role : UserRole) : Bool :=
  role == .entregador

/-- `getAllRoles` (shared/types.mts line 129). -/
def getAllRoles : List UserRole :=
  [.cliente, .administrador, .supervisor, .entregador]

/-- Parse/validate a raw role string against
`validRoles = ['cliente', 'administrador', 'supervisor', 'entregador']`
(the `validRoles.includes(role)` check of the admin users PUT handler). -/
def UserRole.ofString : String → Option UserRole
  | "cliente" => some .cliente
  | "administrador" => some .administrador
  | "supervisor" => some .supervisor
  | "entregador" => some .entregador
  | _ => none

/-! ## Store model -/

/-- A keyed blob store namespace, as a partial map from keys to values. -/
def Store (V : Type) : Type := String → Option V

/-- `store.setJSON(key, v)`. -/
def Store.set {V : Type} (s : Store V) (k : String) (v : V) : Store V :=
  fun k2 => if k2 = k then some v else s k2

/-- `store.delete(key)`. -/
def Store.del {V : Type} (s : Store V) (k : String) : Store V :=
  fun k2 => if k2 = k then none else s k2

/-- The empty store. -/
def Store.empty {V : Type} : Store V := fun _ => none

/-! JS string primitives, modelled at the character-list level so that every
definition evaluates by structural recursion.  The repository only feeds them
ASCII emails, codes and header tokens, where these models agree with the
JS built-ins. -/

/-- JS `String.prototype.trim()`: strip leading and trailing whitespace. -/
def jsTrim (s : String) : String :=
  ⟨((s.data.dropWhile Char.isWhitespace).reverse.dropWhile Char.isWhitespace).reverse⟩

/-- JS `String.prototype.toLowerCase()` (ASCII case folding). -/
def jsToLowerCase (s : String) : String :=
  ⟨s.data.map Char.toLower⟩

/-- JS `String.prototype.startsWith(pre)`. -/
def jsStartsWith (s pre : String) : Bool :=
  pre.data.isPrefixOf s.data

/-- JS `String.prototype.substring(n)` for an ASCII receiver: drop the first
`n` characters. -/
def jsSubstringFrom (s : String) (n : Nat) : String :=
  ⟨s.data.drop n⟩

/-- Email normalization used before every store lookup:
`email.toLowerCase().trim()`. -/
def normalizeEmail (email : String) : String :=
  jsTrim (jsToLowerCase email)

/-- `INITIAL_ADMIN_EMAILS` (auth-login.mts / auth-register.mts). -/
def INITIAL_ADMIN_EMAILS : List String :=
  ["cremildojosephmagimoto@gmail.com"]

/-- Session lifetime: `7 * 24 * 60 * 60 * 1000` ms. -/
def sessionTtlMs : Nat := 7 * 24 * 60 * 60 * 1000

/-! ## Login handler, from `src/netlify/functions/auth-login.mts` -/

inductive LoginResult where
  /-- 400 "Email e senha são obrigatórios". -/
  | validationError
  /-- 401 "Email ou senha incorretos". -/
  | invalidCredentials
  /-- 401 "Por favor, verifique o seu email antes de fazer login". -/
  | notVerified
  /-- 200 success, with the effective role put into the session. -/
  | ok (role : UserRole)
deriving DecidableEq

def LoginResult.isOk : LoginResult → Bool
  | .ok _ => true
  | _ => false

structure LoginOut where
  result : LoginResult
  /-- value at key `user:<normalizedEmail>` after the call -/
  userStore : Option User
  /-- the session record written (under a fresh random token), if any -/
  session : Option Session
deriving DecidableEq

/-- The `/api/auth/login` handler body (auth-login.mts lines 40-138), given
the stored user at key `user:<normalizedEmail>`. -/
def login (hashPassword : String → String) (now : Nat)
    (email password : String) (user : Option User) : LoginOut :=
  if email = "" ∨ password = "" then ⟨.validationError, user, none⟩
  else
    let normalizedEmail := normalizeEmail email
    match user with
    | none => ⟨.invalidCredentials, none, none⟩
    | some u =>
      if u.verified = false then ⟨.notVerified, some u, none⟩
      else if hashPassword password ≠ u.passwordHash then ⟨.invalidCredentials, some u, none⟩
      else
        let isInitialAdmin := INITIAL_ADMIN_EMAILS.any
          (fun adminEmail => jsTrim (jsToLowerCase adminEmail) == normalizedEmail)
        let effectiveRole := u.role.getD .cliente
        if isInitialAdmin ∧ effectiveRole ≠ .administrador then
          let u2 := { u with role := some UserRole.administrador }
          ⟨.ok .administrador, some u2,
            some ⟨u2.id, u2.email, u2.name, some .administrador, now, now + sessionTtlMs⟩⟩
        else
          ⟨.ok effectiveRole, some u,
            some ⟨u.id, u.email, u.name, some effectiveRole, now, now + sessionTtlMs⟩⟩

/-! ## `/api/auth/status` handler, from `src/netlify/functions/auth-status.mts` -/

inductive StatusResult where
  /-- "Sessão não encontrada" (missing/empty bearer token). -/
  | sessionMissing
  /-- "Sessão inválida" (no record under the token). -/
  | sessionNotFound
  /-- "Sessão expirada" (record deleted). -/
  | sessionExpired
  /-- `authenticated: true`. -/
  | authenticated
deriving DecidableEq

/-- The `/api/auth/status` handler body (auth-status.mts lines 21-83).
`token` is `authHeader?.replace("Bearer ", "")`: `none` when the header is
absent, and an empty string is falsy in JS, hence also `sessionMissing`.
Returns the result and the sessions store after the call. -/
def authStatus (now : Nat) (token : Option String) (sessions : Store Session) :
    StatusResult × Store Session :=
  match token with
  | none => (.sessionMissing, sessions)
  | some t =>
    if t = "" then (.sessionMissing, sessions)
    else
      match sessions ("session:" ++ t) with
      | none => (.sessionNotFound, sessions)
      | some s =>
        if now > s.expiresAt then (.sessionExpired, sessions.del ("session:" ++ t))
        else (.authenticated, sessions)

/-- The projection returned by `getSessionFromHeader` in the orders handler. -/
structure SessionInfo where
  userId : String
  email : String
  role : Option UserRole
deriving DecidableEq

/-- `getSessionFromHeader` (orders handler, unnamed part_001 lines 6-34).
Rejects a header without the `"Bearer "` marker, takes
`token = authHeader.substring(7)`, and treats an expired session as absent —
note: it does NOT delete the expired record.  The stored record is typed, so
the `JSON.parse` try/catch never fires in the model. -/
def getSessionFromHeader (now : Nat) (authHeader : Option String)
    (sessions : Store Session) : Option SessionInfo :=
  match authHeader with
  | none => none
  | some h =>
    if jsStartsWith h "Bearer " = false then none
    else
      let token := jsSubstringFrom h 7
      match sessions ("session:" ++ token) with
      | none => none
      | some s =>
        if s.expiresAt < now then none
        else some ⟨s.userId, s.email, s.role⟩

/-! ## Admin access gates -/

inductive AccessResult where
  | sessionMissing
  | sessionInvalid
  | sessionExpired
  /-- "Acesso não autorizado. Apenas administradores podem gerir utilizadores." -/
  | forbidden
  | authorized
deriving DecidableEq

/-- `checkAdminAccess` (admin users handler, unnamed part_000 lines 6-32).
`token` is the extracted bearer token (`none` for a missing header; `""` is
falsy).  An expired session is deleted; then only `role === 'administrador'`
is authorized. -/
def checkAdminAccess (now : Nat) (token : Option String) (sessions : Store Session) :
    AccessResult × Store Session :=
  match token with
  | none => (.sessionMissing, sessions)
  | some t =>
    if t = "" then (.sessionMissing, sessions)
    else
      match sessions ("session:" ++ t) with
      | none => (.sessionInvalid, sessions)
      | some s =>
        if now > s.expiresAt then (.sessionExpired, sessions.del ("session:" ++ t))
        else if s.role ≠ some UserRole.administrador then (.forbidden, sessions)
        else (.authorized, sessions)

/-- The role gate of `PUT /api/orders/:orderNumber` (orders handler, unnamed
part_001 lines 197-203): reject unless
`session.role === "administrador" || session.role === "supervisor"`. -/
def orderStatusUpdateAuthorized (info : SessionInfo) : Bool :=
  if info.role ≠ some UserRole.administrador ∧ info.role ≠ some UserRole.supervisor
  then false else true

/-! ## Verification-code generators

`Math.floor(100000 + Math.random() * 900000).toString()`, shared verbatim by
`generateOTP` (auth-register.mts line 19, auth-resend-otp.mts line 25) and
`generateResetCode` (auth-request-password-reset.mts line 26).
`Math.random()` returns a real `r ∈ [0,1)`; since `100000` is an integer,
`Math.floor(100000 + r * 900000) = 100000 + ⌊r * 900000⌋`, so the whole
randomness is the integer `k = ⌊r * 900000⌋ ∈ [0, 899999]`.
`Number.prototype.toString()` on an integer in this range is its base-10
representation, i.e. `Nat.repr`. -/

/-- `generateOTP` given `k = ⌊Math.random() * 900000⌋`. -/
def generateOTP (k : Nat) : String :=
  Nat.repr (100000 + k)

/-- `generateResetCode` given `k = ⌊Math.random() * 900000⌋`. -/
def generateResetCode (k : Nat) : String :=
  Nat.repr (100000 + k)

/-! ## `/api/auth/verify-otp` handler (second part of auth-reset-password.mts) -/

inductive VerifyResult where
  /-- 400 "Email e código são obrigatórios". -/
  | validationError
  /-- "Código de verificação não encontrado." -/
  | codeNotFound
  /-- "Demasiadas tentativas." (record deleted). -/
  | attemptsExhausted
  /-- "Código expirado." (record deleted). -/
  | codeExpired
  /-- "Código inválido. Tentativas restantes: <n>" (attempts persisted). -/
  | codeMismatch (remainingAttempts : Nat)
  /-- "Utilizador não encontrado." -/
  | userNotFound
  /-- 200: user marked verified, OTP deleted, session issued. -/
  | verified
deriving DecidableEq

structure VerifyOtpOut where
  result : VerifyResult
  /-- value at key `otp:<normalizedEmail>` after the call -/
  otpStore : Option OTPData
  /-- value at key `user:<normalizedEmail>` after the call -/
  userStore : Option User
  /-- the session record written, if any -/
  session : Option Session
deriving DecidableEq

/-- The `/api/auth/verify-otp` handler body (auth-reset-password.mts second
document, lines 264-388), given the stored records at `otp:<email>` and
`user:<email>`.  The submitted code is trimmed before the comparison:
`otpData.code !== data.code.trim()`. -/
def verifyOtp (now : Nat) (email code : String)
    (otpData : Option OTPData) (user : Option User) : VerifyOtpOut :=
  if email = "" ∨ code = "" then ⟨.validationError, otpData, user, none⟩
  else
    match otpData with
    | none => ⟨.codeNotFound, none, user, none⟩
    | some o =>
      if o.attempts ≥ 5 then ⟨.attemptsExhausted, none, user, none⟩
      else if now > o.expiresAt then ⟨.codeExpired, none, user, none⟩
      else if o.code ≠ jsTrim code then
        ⟨.codeMismatch (5 - (o.attempts + 1)), some { o with attempts := o.attempts + 1 },
          user, none⟩
      else
        match user with
        | none => ⟨.userNotFound, some o, none, none⟩
        | some u =>
          let u2 := { u with verified := true }
          ⟨.verified, none, some u2,
            some ⟨u2.id, u2.email, u2.name, none, now, now + sessionTtlMs⟩⟩

/-! ## `/api/auth/reset-password` handler (first part of auth-reset-password.mts) -/

inductive ResetResult where
  /-- 400 "Email, código e nova senha são obrigatórios". -/
  | validationError
  /-- 400 "A nova senha deve ter pelo menos 6 caracteres". -/
  | passwordTooShort
  /-- "Código de recuperação inválido ou expirado." -/
  | codeNotFound
  /-- "Número máximo de tentativas excedido." (record deleted). -/
  | attemptsExhausted
  /-- "Código expirado." (record deleted). -/
  | codeExpired
  /-- "Código incorreto. <n> tentativa(s) restante(s)." (attempts persisted). -/
  | codeMismatch (remainingAttempts : Nat)
  /-- "Utilizador não encontrado". -/
  | userNotFound
  /-- 200: password hash replaced, reset code deleted, session issued. -/
  | ok
deriving DecidableEq

structure ResetOut where
  result : ResetResult
  /-- value at key `reset:<normalizedEmail>` after the call -/
  resetStore : Option PasswordResetData
  /-- value at key `user:<normalizedEmail>` after the call -/
  userStore : Option User
  /-- the session record written, if any -/
  session : Option Session
deriving DecidableEq

/-- The `/api/auth/reset-password` handler body (auth-reset-password.mts
lines 52-195), given the stored records at `reset:<email>` and `user:<email>`.
Note the comparison `resetData.code !== data.code` does NOT trim the
submitted code, unlike the verify-otp handler. -/
def resetPassword (hashPassword : String → String) (now : Nat)
    (email code newPassword : String)
    (resetData : Option PasswordResetData) (user : Option User) : ResetOut :=
  if email = "" ∨ code = "" ∨ newPassword = "" then
    ⟨.validationError, resetData, user, none⟩
  else if newPassword.length < 6 then ⟨.passwordTooShort, resetData, user, none⟩
  else
    match resetData with
    | none => ⟨.codeNotFound, none, user, none⟩
    | some r =>
      if r.attempts ≥ 5 then ⟨.attemptsExhausted, none, user, none⟩
      else if now > r.expiresAt then ⟨.codeExpired, none, user, none⟩
      else if r.code ≠ code then
        ⟨.codeMismatch (5 - (r.attempts + 1)), some { r with attempts := r.attempts + 1 },
          user, none⟩
      else
        match user with
        | none => ⟨.userNotFound, some r, none, none⟩
        | some u =>
          let u2 := { u with passwordHash := hashPassword newPassword }
          ⟨.ok, none, some u2,
            some ⟨u2.id, u2.email, u2.name, none, now, now + sessionTtlMs⟩⟩

/-! ## `/api/auth/register` handler, from `src/netlify/functions/auth-register.mts` -/

/-- One character of the regex class `[^\s@]`. -/
def emailClassChar (c : Char) : Bool :=
  !c.isWhitespace && c != '@'

/-- `emailRegex = /^[^\s@]+@[^\s@]+\.[^\s@]+$/` (auth-register.mts line 109).
A string matches iff it decomposes as `A ++ "@" ++ B ++ "." ++ C` with
`A`, `B`, `C` nonempty and every character outside `\s` and `@`.  The class
excludes `@`, so `A` is everything before the unique `@`; the class allows
`.`, so the part after `@` merely needs all class characters plus a `.` at
some interior position (giving nonempty `B` and `C`). -/
def emailRegexTest (email : String) : Bool :=
  match email.toList.splitOn '@' with
  | [localPart, domainPart] =>
    !localPart.isEmpty && localPart.all emailClassChar &&
    domainPart.all emailClassChar &&
    ((domainPart.drop 1).dropLast.contains '.')
  | _ => false

inductive RegisterResult where
  /-- 400 "Todos os campos são obrigatórios". -/
  | validationError
  /-- 400 "Email inválido". -/
  | invalidEmail
  /-- 400 "A senha deve ter pelo menos 6 caracteres". -/
  | passwordTooShort
  /-- 400 "Este email já está registado". -/
  | emailAlreadyRegistered
  /-- 500 "Não foi possível enviar o código de verificação." -/
  | emailSendFailed
  /-- 200 "Código de verificação enviado para o seu email." -/
  | ok
deriving DecidableEq

structure RegisterOut where
  result : RegisterResult
  /-- value at key `user:<normalizedEmail>` after the call -/
  userStore : Option User
  /-- value at key `otp:<normalizedEmail>` after the call -/
  otpStore : Option OTPData
deriving DecidableEq

/-- The `/api/auth/register` handler body (auth-register.mts lines 97-204),
given the stored records at `user:<email>` and `otp:<email>`.
`userId` models `crypto.randomUUID()`, `otpCode` the freshly generated OTP,
`createdAtISO` the `new Date().toISOString()` stamp, and `emailSendOk` the
outcome of the external `sendOTPEmail` collaborator.  The user and OTP
records are written to the store BEFORE the email dispatch; an email failure
returns an error response without rolling either write back. -/
def register (hashPassword : String → String) (now : Nat)
    (userId otpCode createdAtISO : String) (emailSendOk : Bool)
    (name email phone password : String)
    (existingUser : Option User) (existingOtp : Option OTPData) : RegisterOut :=
  if name = "" ∨ email = "" ∨ phone = "" ∨ password = "" then
    ⟨.validationError, existingUser, existingOtp⟩
  else if emailRegexTest email = false then ⟨.invalidEmail, existingUser, existingOtp⟩
  else if password.length < 6 then ⟨.passwordTooShort, existingUser, existingOtp⟩
  else if (match existingUser with
           | some eu => eu.verified
           | none => false) then
    ⟨.emailAlreadyRegistered, existingUser, existingOtp⟩
  else
    let normalizedEmail := normalizeEmail email
    let isInitialAdmin := INITIAL_ADMIN_EMAILS.any
      (fun adminEmail => jsTrim (jsToLowerCase adminEmail) == normalizedEmail)
    let userRole : UserRole := if isInitialAdmin then .administrador else .cliente
    let user : User :=
      ⟨userId, jsTrim name, normalizedEmail, jsTrim phone, hashPassword password,
        false, some userRole, createdAtISO⟩
    let otpData : OTPData := ⟨otpCode, normalizedEmail, now + 10 * 60 * 1000, 0⟩
    if emailSendOk = false then ⟨.emailSendFailed, some user, some otpData⟩
    else ⟨.ok, some user, some otpData⟩

/-! ## Admin user-management endpoints (unnamed part_000) -/

/-- `const { passwordHash, ...safeUser } = user`: every field of `User`
except `passwordHash`. -/
structure SafeUser where
  id : String
  name : String
  email : String
  phone : String
  verified : Bool
  role : Option UserRole
  createdAt : String
deriving DecidableEq

/-- The rest-destructuring `{ passwordHash, ...safeUser }`. -/
def omitPasswordHash (u : User) : SafeUser :=
  ⟨u.id, u.name, u.email, u.phone, u.verified, u.role, u.createdAt⟩

/-- The JSON keys of a full `User` record as the handlers serialize it. -/
def userJsonKeys : List String :=
  ["id", "name", "email", "phone", "passwordHash", "verified", "role", "createdAt"]

/-- The JSON keys of a `SafeUser` object, i.e. of the rest object left by
`const { passwordHash, ...safeUser } = user`. -/
def safeUserJsonKeys : List String :=
  ["id", "name", "email", "phone", "verified", "role", "createdAt"]

/-- `GET /api/admin/users` (part_000 lines 62-88): list every blob under
`user:`, re-fetch each, skip vanished records, and push the destructured
safe user.  `stored` is the list of `get` results in listing order. -/
def adminListUsers (stored : List (Option User)) : List SafeUser :=
  stored.filterMap (fun ou => ou.map omitPasswordHash)

inductive AdminGetResult where
  /-- 404 "Utilizador não encontrado". -/
  | notFound
  /-- 200 `{ success: true, user: safeUser }`. -/
  | found (user : SafeUser)
deriving DecidableEq

/-- `GET /api/admin/users/:email` (part_000 lines 91-108), given the stored
user at `user:<normalizedEmail>`. -/
def adminGetUser (user : Option User) : AdminGetResult :=
  match user with
  | none => .notFound
  | some u => .found (omitPasswordHash u)

inductive UpdateRoleResult where
  /-- 400 "O campo 'role' é obrigatório". -/
  | roleRequired
  /-- 400 "Role inválido." -/
  | invalidRole
  /-- 404 "Utilizador não encontrado". -/
  | notFound
  /-- 200 `{ success: true, user: safeUser }`. -/
  | updated (user : SafeUser)
deriving DecidableEq

structure UpdateRoleOut where
  result : UpdateRoleResult
  /-- value at key `user:<normalizedEmail>` after the call -/
  userStore : Option User
deriving DecidableEq

/-- `PUT /api/admin/users/:email` (part_000 lines 111-154): require a `role`
field (`""` is falsy), validate it against the closed role list, then write
the updated user and answer with the destructured safe user. -/
def adminUpdateUserRole (roleStr : Option String) (user : Option User) : UpdateRoleOut :=
  match roleStr with
  | none => ⟨.roleRequired, user⟩
  | some rs =>
    if rs = "" then ⟨.roleRequired, user⟩
    else
      match UserRole.ofString rs with
      | none => ⟨.invalidRole, user⟩
      | some role =>
        match user with
        | none => ⟨.notFound, none⟩
        | some u =>
          let u2 := { u with role := some role }
          ⟨.updated (omitPasswordHash u2), some u2⟩

/-! ## Helper lemmas on decimal rendering (`Nat.repr`) -/

theorem toDigitsCore_eq_digits (fuel : Nat) :
    ∀ (n : Nat) (acc : List Char), 0 < n → n ≤ fuel →
    Nat.toDigitsCore 10 fuel n acc = ((Nat.digits 10 n).map Nat.digitChar).reverse ++ acc := by
  induction fuel with
  | zero => intro n acc h0 hf; omega
  | succ fuel ih =>
    intro n acc h0 hf
    by_cases hnd : n / 10 = 0
    · have hn10 : n < 10 := (Nat.div_eq_zero_iff (by norm_num)).mp hnd
      have hdig : Nat.digits 10 n = [n % 10] := by
        rw [Nat.digits_def' (by norm_num : (1:ℕ) < 10) h0, hnd, Nat.digits_zero]
      rw [hdig]
      simp [Nat.toDigitsCore, hnd, Nat.mod_eq_of_lt hn10]
    · have hlt : n / 10 < n := Nat.div_lt_self h0 (by norm_num)
      have h0d : 0 < n / 10 := Nat.pos_of_ne_zero hnd
      have hfd : n / 10 ≤ fuel := by omega
      have hdig := Nat.digits_def' (by norm_num : (1:ℕ) < 10) h0
      rw [show Nat.toDigitsCore 10 (fuel + 1) n acc
            = Nat.toDigitsCore 10 fuel (n / 10) (Nat.digitChar (n % 10) :: acc) by
          simp [Nat.toDigitsCore, hnd],
        ih (n / 10) (Nat.digitChar (n % 10) :: acc) h0d hfd, hdig]
      simp

theorem repr_data_eq (n : Nat) (h0 : 0 < n) :
    (Nat.repr n).data = ((Nat.digits 10 n).map Nat.digitChar).reverse := by
  show ((Nat.toDigits 10 n).asString).data = _
  rw [Nat.toDigits, toDigitsCore_eq_digits (n + 1) n [] h0 (by omega)]
  simp [List.asString]

theorem log10_eq_five (n : Nat) (h1 : 100000 ≤ n) (h2 : n < 1000000) :
    Nat.log 10 n = 5 :=
  Nat.log_eq_of_pow_le_of_lt_pow (by norm_num; omega) (by norm_num; omega)

theorem repr_length_six (n : Nat) (h1 : 100000 ≤ n) (h2 : n < 1000000) :
    (Nat.repr n).length = 6 := by
  have h0 : 0 < n := by omega
  show (Nat.repr n).data.length = 6
  rw [repr_data_eq n h0]
  rw [List.length_reverse, List.length_map,
    Nat.digits_len 10 n (by norm_num) (by omega), log10_eq_five n h1 h2]

theorem digitChar_ne_zero_char (d : Nat) (hd : d ≠ 0) (hd10 : d < 10) :
    Nat.digitChar d ≠ '0' := by
  interval_cases d <;> first | exact absurd rfl hd | decide

theorem repr_head_ne_zero (n : Nat) (h0 : 0 < n) :
    (Nat.repr n).data.head? ≠ some '0' := by
  rw [repr_data_eq n h0, List.head?_reverse]
  have hne : Nat.digits 10 n ≠ [] := Nat.digits_ne_nil_iff_ne_zero.mpr (by omega)
  have hmape : (Nat.digits 10 n).map Nat.digitChar ≠ [] := by
    simpa using hne
  rw [List.getLast?_eq_getLast _ hmape, List.getLast_map]
  have hlast0 : (Nat.digits 10 n).getLast hne ≠ 0 :=
    Nat.getLast_digit_ne_zero 10 (m := n) (by omega)
  have hlast10 : (Nat.digits 10 n).getLast hne < 10 :=
    Nat.digits_lt_base (by norm_num) (List.getLast_mem hne)
  intro hcontra
  exact digitChar_ne_zero_char _ hlast0 hlast10 (Option.some.injEq _ _ ▸ hcontra)

/-! ## C5: verification-code generator -/

/-- **C5 counterexample.**  The claim asserts that some invocation of the
6-digit code generator returns a code beginning with the character `'0'`
(leading zeros allowed, e.g. `"042317"`).  This is impossible:
`Math.floor(100000 + Math.random() * 900000)` lies in `[100000, 999999]`,
whose decimal rendering never starts with `'0'`. -/
theorem no_generated_code_begins_with_zero :
    ¬ ∃ k, k < 900000 ∧ (generateOTP k).data.head? = some '0' := by
  rintro ⟨k, _, h⟩
  exact repr_head_ne_zero (100000 + k) (by omega) h

/-- **C5 (amended).**  Every code produced by the verification-code generator
(OTP and reset variants agree) renders as exactly 6 characters, drawn from
the range `[100000, 999999]`: the first character is never `'0'`, so codes
with leading zeros are never produced. -/
theorem generated_codes_six_chars_never_leading_zero (k : Nat) (hk : k < 900000) :
    (generateOTP k).length = 6 ∧ (generateOTP k).data.head? ≠ some '0' ∧
    generateResetCode k = generateOTP k :=
  ⟨repr_length_six (100000 + k) (by omega) (by omega),
   repr_head_ne_zero (100000 + k) (by omega), rfl⟩

/-- Witness for C5 at `k = 42317` (the value the claim's example `"042317"`
would require): the generated code is `"142317"`. -/
theorem generated_codes_six_chars_witness :
    42317 < 900000 ∧
    ((generateOTP 42317).length = 6 ∧ (generateOTP 42317).data.head? ≠ some '0' ∧
      generateResetCode 42317 = generateOTP 42317) :=
  ⟨by decide, generated_codes_six_chars_never_leading_zero 42317 (by decide)⟩

/-! ## C8: role predicates and gates -/

/-- **C8.**  Over the closed role enumeration, `isAdminRole` is true exactly
on `administrador` (supervisor excluded), `canManageOrders` exactly on
`administrador` and `supervisor`; the user-management gate
(`checkAdminAccess`) authorizes a present, unexpired session exactly when its
role is `administrador`, and the order status-update gate admits exactly
`administrador` and `supervisor`. -/
theorem role_gates_admit_exactly_specified_roles :
    (∀ role : UserRole, isAdminRole role = true ↔ role = .administrador)
    ∧ (∀ role : UserRole,
        canManageOrders role = true ↔ role = .administrador ∨ role = .supervisor)
    ∧ (∀ (now : Nat) (t : String) (store : Store Session) (s : Session),
        t ≠ "" → store ("session:" ++ t) = some s → ¬ now > s.expiresAt →
        ((checkAdminAccess now (some t) store).1 = .authorized ↔
          s.role = some .administrador))
    ∧ (∀ info : SessionInfo,
        orderStatusUpdateAuthorized info = true ↔
          info.role = some .administrador ∨ info.role = some .supervisor) := by
  refine ⟨?_, ?_, ?_, ?_⟩
  · intro role; cases role <;> simp [isAdminRole]
  · intro role; cases role <;> simp [canManageOrders]
  · intro now t store s ht hs hexp
    simp only [checkAdminAccess, ht, if_false, hs, hexp]
    by_cases hr : s.role = some UserRole.administrador <;> simp [hr]
  · intro info
    by_cases h1 : info.role = some UserRole.administrador <;>
      by_cases h2 : info.role = some UserRole.supervisor <;>
        simp [orderStatusUpdateAuthorized, h1, h2]

def sampleAdminSession : Session :=
  ⟨"id1", "ana@x.com", "Ana", some .administrador, 0, 1000⟩

def sampleSessions : Store Session :=
  Store.empty.set "session:tok" sampleAdminSession

/-- Witness for C8 on a concrete admin session. -/
theorem role_gates_witness :
    isAdminRole .supervisor = false ∧ canManageOrders .supervisor = true ∧
    ("tok" ≠ "" ∧ sampleSessions ("session:" ++ "tok") = some sampleAdminSession ∧
      ¬ 500 > sampleAdminSession.expiresAt) ∧
    (checkAdminAccess 500 (some "tok") sampleSessions).1 = .authorized ∧
    orderStatusUpdateAuthorized ⟨"id1", "ana@x.com", some .supervisor⟩ = true := by
  refine ⟨by decide, by decide, ⟨by decide, by decide, by decide⟩, ?_, by decide⟩
  exact (role_gates_admit_exactly_specified_roles.2.2.1 500 "tok" sampleSessions
    sampleAdminSession (by decide) (by decide) (by decide)).mpr (by decide)

/-! ## C9: admin endpoints omit the password hash -/

/-- **C9.**  Every user object in a successful response of the three admin
user-management endpoints is the rest-destructuring `omitPasswordHash` of a
stored user, and the serialized key set of such an object is exactly the
full record's key set minus `"passwordHash"`. -/
theorem admin_endpoints_omit_password_hash :
    (∀ (stored : List (Option User)) (su : SafeUser), su ∈ adminListUsers stored →
      ∃ u, some u ∈ stored ∧ su = omitPasswordHash u)
    ∧ (∀ (user : Option User) (su : SafeUser), adminGetUser user = .found su →
      ∃ u, user = some u ∧ su = omitPasswordHash u)
    ∧ (∀ (roleStr : Option String) (user : Option User) (su : SafeUser)
        (after : Option User),
        adminUpdateUserRole roleStr user = ⟨.updated su, after⟩ →
        ∃ u role, user = some u ∧ su = omitPasswordHash { u with role := some role })
    ∧ safeUserJsonKeys = userJsonKeys.erase "passwordHash"
    ∧ "passwordHash" ∉ safeUserJsonKeys := by
  refine ⟨?_, ?_, ?_, by decide, by decide⟩
  · intro stored su hmem
    simp only [adminListUsers, List.mem_filterMap] at hmem
    obtain ⟨ou, hou, hmap⟩ := hmem
    cases ou with
    | none => simp at hmap
    | some u => exact ⟨u, hou, by simpa using hmap.symm⟩
  · intro user su h
    cases user with
    | none => simp [adminGetUser] at h
    | some u =>
      refine ⟨u, rfl, ?_⟩
      simpa [adminGetUser] using h.symm
  · intro roleStr user su after h
    cases roleStr with
    | none => simp [adminUpdateUserRole] at h
    | some rs =>
      by_cases hrs : rs = ""
      · simp [adminUpdateUserRole, hrs] at h
      · cases hor : UserRole.ofString rs with
        | none => simp [adminUpdateUserRole, hrs, hor] at h
        | some role =>
          cases user with
          | none => simp [adminUpdateUserRole, hrs, hor] at h
          | some u =>
            refine ⟨u, role, rfl, ?_⟩
            simp [adminUpdateUserRole, hrs, hor] at h
            exact h.1.symm

def sampleStoredUser : User :=
  ⟨"id1", "Ana", "ana@x.com", "82", "secretHash", true, some .cliente, "t"⟩

/-- Witness for C9 on a concrete stored user across the three endpoints. -/
theorem admin_endpoints_omit_password_hash_witness :
    (∃ u, some u ∈ [some sampleStoredUser] ∧
      omitPasswordHash sampleStoredUser = omitPasswordHash u) ∧
    (∃ u, some sampleStoredUser = some u ∧
      omitPasswordHash sampleStoredUser = omitPasswordHash u) ∧
    (∃ u role, some sampleStoredUser = some u ∧
      omitPasswordHash { sampleStoredUser with role := some UserRole.supervisor }
        = omitPasswordHash { u with role := some role }) ∧
    "passwordHash" ∉ safeUserJsonKeys :=
  ⟨admin_endpoints_omit_password_hash.1 [some sampleStoredUser]
      (omitPasswordHash sampleStoredUser) (by decide),
   admin_endpoints_omit_password_hash.2.1 (some sampleStoredUser)
      (omitPasswordHash sampleStoredUser) (by decide),
   admin_endpoints_omit_password_hash.2.2.1 (some "supervisor") (some sampleStoredUser)
      (omitPasswordHash { sampleStoredUser with role := some UserRole.supervisor })
      (some { sampleStoredUser with role := some UserRole.supervisor }) (by decide),
   admin_endpoints_omit_password_hash.2.2.2.2⟩

/-! ## C1: verification check order -/

/-- **C1.**  In both verify variants (registration OTP and password-reset
code) the checks run in this order: a missing record fails `CodeNotFound`; a
record with `attempts ≥ 5` is deleted and fails `AttemptsExhausted` for every
submitted code, including the correct one; a record with `now > expiresAt` is
deleted and fails `CodeExpired`; only past those checks is the submitted code
compared, and on success the record is deleted and the success response
returned. -/
theorem verify_checks_ordered_and_eager_eviction :
    (∀ (now : Nat) (email code : String) (user : Option User),
      email ≠ "" → code ≠ "" →
      verifyOtp now email code none user = ⟨.codeNotFound, none, user, none⟩)
    ∧ (∀ (now : Nat) (email code : String) (o : OTPData) (user : Option User),
      email ≠ "" → code ≠ "" → o.attempts ≥ 5 →
      verifyOtp now email code (some o) user = ⟨.attemptsExhausted, none, user, none⟩)
    ∧ (∀ (now : Nat) (email code : String) (o : OTPData) (user : Option User),
      email ≠ "" → code ≠ "" → o.attempts < 5 → now > o.expiresAt →
      verifyOtp now email code (some o) user = ⟨.codeExpired, none, user, none⟩)
    ∧ (∀ (now : Nat) (email code : String) (o : OTPData) (u : User),
      email ≠ "" → code ≠ "" → o.attempts < 5 → ¬ now > o.expiresAt →
      o.code = jsTrim code →
      verifyOtp now email code (some o) (some u)
        = ⟨.verified, none, some { u with verified := true },
            some ⟨u.id, u.email, u.name, none, now, now + sessionTtlMs⟩⟩)
    ∧ (∀ (hash : String → String) (now : Nat) (email code newPw : String)
        (user : Option User),
      email ≠ "" → code ≠ "" → newPw ≠ "" → ¬ newPw.length < 6 →
      resetPassword hash now email code newPw none user
        = ⟨.codeNotFound, none, user, none⟩)
    ∧ (∀ (hash : String → String) (now : Nat) (email code newPw : String)
        (r : PasswordResetData) (user : Option User),
      email ≠ "" → code ≠ "" → newPw ≠ "" → ¬ newPw.length < 6 → r.attempts ≥ 5 →
      resetPassword hash now email code newPw (some r) user
        = ⟨.attemptsExhausted, none, user, none⟩)
    ∧ (∀ (hash : String → String) (now : Nat) (email code newPw : String)
        (r : PasswordResetData) (user : Option User),
      email ≠ "" → code ≠ "" → newPw ≠ "" → ¬ newPw.length < 6 →
      r.attempts < 5 → now > r.expiresAt →
      resetPassword hash now email code newPw (some r) user
        = ⟨.codeExpired, none, user, none⟩)
    ∧ (∀ (hash : String → String) (now : Nat) (email code newPw : String)
        (r : PasswordResetData) (u : User),
      email ≠ "" → code ≠ "" → newPw ≠ "" → ¬ newPw.length < 6 →
      r.attempts < 5 → ¬ now > r.expiresAt → r.code = code →
      resetPassword hash now email code newPw (some r) (some u)
        = ⟨.ok, none, some { u with passwordHash := hash newPw },
            some ⟨u.id, u.email, u.name, none, now, now + sessionTtlMs⟩⟩) := by
  refine ⟨?_, ?_, ?_, ?_, ?_, ?_, ?_, ?_⟩
  · intro now email code user he hc
    simp [verifyOtp, he, hc]
  · intro now email code o user he hc h5
    simp [verifyOtp, he, hc, h5]
  · intro now email code o user he hc h5 hexp
    have h5n : ¬ o.attempts ≥ 5 := by omega
    simp [verifyOtp, he, hc, h5n, hexp]
  · intro now email code o u he hc h5 hexp hcode
    have h5n : ¬ o.attempts ≥ 5 := by omega
    simp [verifyOtp, he, hc, h5n, hexp, hcode]
  · intro hash now email code newPw user he hc hp hlen
    simp [resetPassword, he, hc, hp, hlen]
  · intro hash now email code newPw r user he hc hp hlen h5
    simp [resetPassword, he, hc, hp, hlen, h5]
  · intro hash now email code newPw r user he hc hp hlen h5 hexp
    have h5n : ¬ r.attempts ≥ 5 := by omega
    simp [resetPassword, he, hc, hp, hlen, h5n, hexp]
  · intro hash now email code newPw r u he hc hp hlen h5 hexp hcode
    have h5n : ¬ r.attempts ≥ 5 := by omega
    simp [resetPassword, he, hc, hp, hlen, h5n, hexp, hcode]

def sampleExhaustedOtp : OTPData := ⟨"123456", "ana@x.com", 1000, 5⟩

def sampleFreshOtp : OTPData := ⟨"123456", "ana@x.com", 1000, 0⟩

def sampleUnverifiedUser : User :=
  ⟨"id1", "Ana", "ana@x.com", "82", "oldhash", false, some .cliente, "t"⟩

/-- Witness for C1: at an exhausted record even the CORRECT code fails
`AttemptsExhausted` with eager deletion, and the full order is exercised on
concrete records. -/
theorem verify_checks_ordered_witness :
    verifyOtp 500 "ana@x.com" "123456" none (some sampleUnverifiedUser)
      = ⟨.codeNotFound, none, some sampleUnverifiedUser, none⟩ ∧
    verifyOtp 500 "ana@x.com" "123456" (some sampleExhaustedOtp) (some sampleUnverifiedUser)
      = ⟨.attemptsExhausted, none, some sampleUnverifiedUser, none⟩ ∧
    verifyOtp 2000 "ana@x.com" "123456" (some sampleFreshOtp) (some sampleUnverifiedUser)
      = ⟨.codeExpired, none, some sampleUnverifiedUser, none⟩ ∧
    verifyOtp 500 "ana@x.com" "123456" (some sampleFreshOtp) (some sampleUnverifiedUser)
      = ⟨.verified, none, some { sampleUnverifiedUser with verified := true },
          some ⟨"id1", "ana@x.com", "Ana", none, 500, 500 + sessionTtlMs⟩⟩ ∧
    resetPassword (fun s => s) 500 "ana@x.com" "123456" "newpass1"
        (some ⟨"123456", "ana@x.com", 1000, 5⟩) (some sampleUnverifiedUser)
      = ⟨.attemptsExhausted, none, some sampleUnverifiedUser, none⟩ :=
  ⟨verify_checks_ordered_and_eager_eviction.1 500 "ana@x.com" "123456"
      (some sampleUnverifiedUser) (by decide) (by decide),
   verify_checks_ordered_and_eager_eviction.2.1 500 "ana@x.com" "123456"
      sampleExhaustedOtp (some sampleUnverifiedUser) (by decide) (by decide) (by decide),
   verify_checks_ordered_and_eager_eviction.2.2.1 2000 "ana@x.com" "123456"
      sampleFreshOtp (some sampleUnverifiedUser) (by decide) (by decide) (by decide) (by decide),
   verify_checks_ordered_and_eager_eviction.2.2.2.1 500 "ana@x.com" "123456"
      sampleFreshOtp sampleUnverifiedUser (by decide) (by decide) (by decide) (by decide)
      (by decide),
   verify_checks_ordered_and_eager_eviction.2.2.2.2.2.1 (fun s => s) 500 "ana@x.com"
      "123456" "newpass1" ⟨"123456", "ana@x.com", 1000, 5⟩ (some sampleUnverifiedUser)
      (by decide) (by decide) (by decide) (by decide) (by decide)⟩

/-! ## C2: account-enumeration resistance of login -/

/-- **C2 counterexample.**  For an existing but UNVERIFIED user and a
password whose hash does not match the stored hash, login fails with
`NotVerified` (carrying a `needsVerification` flag), not `InvalidCredentials`:
the `verified` check runs before the hash comparison, so this failure is
distinguishable from the absent-user failure. -/
theorem login_enumeration_counterexample :
    (fun s => s) "wrongpw" ≠ sampleUnverifiedUser.passwordHash ∧
    (login (fun s => s) 0 "ana@x.com" "wrongpw" (some sampleUnverifiedUser)).result
      = .notVerified ∧
    (login (fun s => s) 0 "ana@x.com" "wrongpw" (some sampleUnverifiedUser)).result
      ≠ .invalidCredentials := by
  refine ⟨by decide, by decide, by decide⟩

/-- **C2 (amended).**  For a VERIFIED stored user, an absent-user login and a
hash-mismatch login both fail with `InvalidCredentials` (absence checked
first), so those two failures are indistinguishable; for an unverified user
the hash mismatch instead surfaces as `NotVerified`. -/
theorem login_failures_indistinguishable_for_verified
    (hash : String → String) (now : Nat) (email password : String) (u : User)
    (he : email ≠ "") (hp : password ≠ "")
    (hv : u.verified = true) (hm : hash password ≠ u.passwordHash) :
    (login hash now email password none).result = .invalidCredentials ∧
    (login hash now email password (some u)).result = .invalidCredentials := by
  constructor
  · simp [login, he, hp]
  · simp [login, he, hp, hv, hm]

def sampleVerifiedUser : User :=
  ⟨"id1", "Ana", "ana@x.com", "82", "storedHash", true, some .cliente, "t"⟩

/-- Witness for C2 (amended) on a concrete verified user. -/
theorem login_failures_indistinguishable_witness :
    (login (fun s => s) 0 "ana@x.com" "wrongpw" none).result = .invalidCredentials ∧
    (login (fun s => s) 0 "ana@x.com" "wrongpw" (some sampleVerifiedUser)).result
      = .invalidCredentials :=
  login_failures_indistinguishable_for_verified (fun s => s) 0 "ana@x.com" "wrongpw"
    sampleVerifiedUser (by decide) (by decide) (by decide) (by decide)

/-! ## C7: unverified user always gets NotVerified -/

/-- **C7.**  For every stored user with `verified == false`, login with the
CORRECT password fails with `NotVerified`, never `InvalidCredentials`: the
`verified` check precedes the hash comparison. -/
theorem login_unverified_gets_not_verified
    (hash : String → String) (now : Nat) (email password : String) (u : User)
    (he : email ≠ "") (hp : password ≠ "")
    (hunv : u.verified = false) (hcorrect : hash password = u.passwordHash) :
    (login hash now email password (some u)).result = .notVerified ∧
    (login hash now email password (some u)).result ≠ .invalidCredentials := by
  have h : (login hash now email password (some u)).result = .notVerified := by
    simp [login, he, hp, hunv]
  exact ⟨h, by simp [h]⟩

/-- Witness for C7: the unverified sample user with the correct password. -/
theorem login_unverified_witness :
    (login (fun s => s) 0 "ana@x.com" "oldhash" (some sampleUnverifiedUser)).result
      = .notVerified ∧
    (login (fun s => s) 0 "ana@x.com" "oldhash" (some sampleUnverifiedUser)).result
      ≠ .invalidCredentials :=
  login_unverified_gets_not_verified (fun s => s) 0 "ana@x.com" "oldhash"
    sampleUnverifiedUser (by decide) (by decide) (by decide) (by decide)

/-! ## C3: expired sessions -/

def boundarySession : Session := ⟨"id1", "ana@x.com", "Ana", some .cliente, 0, 1000⟩

def boundarySessions : Store Session := Store.empty.set "session:tok" boundarySession

/-- **C3 counterexample.**  The claim uses the state machine's boundary
`now ≥ expiresAt`.  At exactly `now = expiresAt` both session validators
treat the session as STILL VALID, because the code checks the strict
`Date.now() > session.expiresAt` (resp. `session.expiresAt < Date.now()`):
the status endpoint answers `authenticated` and the orders helper returns
the session info. -/
theorem session_expiry_boundary_counterexample :
    1000 ≥ boundarySession.expiresAt ∧
    (authStatus 1000 (some "tok") boundarySessions).1 = .authenticated ∧
    getSessionFromHeader 1000 (some "Bearer tok") boundarySessions
      = some ⟨"id1", "ana@x.com", some .cliente⟩ := by
  refine ⟨by decide, by decide, by decide⟩

/-- **C3 (amended).**  For every session token whose stored session is
STRICTLY past expiry (`now > expiresAt`), the status endpoint never returns
it as valid: it deletes the record, fails `SessionExpired`, and a subsequent
lookup for the same token fails `SessionNotFound`; the orders helper
`getSessionFromHeader` also rejects such a session (returns `null`), though
it does not delete the record.  At the exact boundary `now = expiresAt` both
validators still accept the session. -/
theorem expired_session_rejected_and_evicted
    (now : Nat) (t : String) (store : Store Session) (s : Session)
    (ht : t ≠ "") (hs : store ("session:" ++ t) = some s)
    (hexp : now > s.expiresAt) :
    (authStatus now (some t) store).1 = .sessionExpired ∧
    (authStatus now (some t) store).2 ("session:" ++ t) = none ∧
    (authStatus now (some t) (authStatus now (some t) store).2).1 = .sessionNotFound ∧
    (∀ h : String, jsStartsWith h "Bearer " = true → jsSubstringFrom h 7 = t →
      getSessionFromHeader now (some h) store = none) := by
  have hres : authStatus now (some t) store
      = (.sessionExpired, store.del ("session:" ++ t)) := by
    simp [authStatus, ht, hs, hexp]
  have hdel : (store.del ("session:" ++ t)) ("session:" ++ t) = none := by
    simp [Store.del]
  refine ⟨by rw [hres], by rw [hres]; exact hdel, ?_, ?_⟩
  · rw [hres]
    simp [authStatus, ht, hdel]
  · intro h hpre htok
    have hlt : s.expiresAt < now := hexp
    simp [getSessionFromHeader, hpre, htok, hs, hlt]

/-- Witness for C3 (amended): one tick past the boundary the session is
rejected, evicted, and subsequently not found. -/
theorem expired_session_rejected_witness :
    (authStatus 1001 (some "tok") boundarySessions).1 = .sessionExpired ∧
    (authStatus 1001 (some "tok") boundarySessions).2 ("session:" ++ "tok") = none ∧
    (authStatus 1001 (some "tok") (authStatus 1001 (some "tok") boundarySessions).2).1
      = .sessionNotFound ∧
    (∀ h : String, jsStartsWith h "Bearer " = true → jsSubstringFrom h 7 = "tok" →
      getSessionFromHeader 1001 (some h) boundarySessions = none) :=
  expired_session_rejected_and_evicted 1001 "tok" boundarySessions boundarySession
    (by decide) (by decide) (by decide)

/-! ## C4: password reset rotates the credential -/

/-- A verified user whose stored hash matches the submitted password's hash
logs in successfully (whatever role the bootstrap-admin promotion picks). -/
theorem login_ok_of_correct (hash : String → String) (now : Nat) (email password : String)
    (u : User) (he : email ≠ "") (hp : password ≠ "") (hv : u.verified = true)
    (hh : hash password = u.passwordHash) :
    ((login hash now email password (some u)).result).isOk = true := by
  simp [login, he, hp, hv, hh]
  split <;> simp [LoginResult.isOk]

/-- **C4.**  For a stored reset-code record matching the submitted code,
unexpired and with `attempts < 5`, held by a present verified user,
`resetPassword` replaces the password hash: a subsequent login with the old
password fails `InvalidCredentials`, a login with the new password succeeds,
and the reset code is consumed exactly once — repeating the same
`resetPassword` call on the resulting stores fails `CodeNotFound`.
(`hnocol` states that the digests of the two passwords differ, i.e. no
SHA-256 collision between old and new password.) -/
theorem reset_password_rotates_credential
    (hash : String → String) (now now2 : Nat)
    (email code newPw oldPw : String) (r : PasswordResetData) (u : User)
    (he : email ≠ "") (hc : code ≠ "") (hlen : ¬ newPw.length < 6)
    (holdPw : oldPw ≠ "")
    (hmatch : r.code = code) (hatt : r.attempts < 5) (hexp : ¬ now > r.expiresAt)
    (hverified : u.verified = true)
    (hauth : hash oldPw = u.passwordHash)
    (hnocol : hash newPw ≠ hash oldPw) :
    (resetPassword hash now email code newPw (some r) (some u)).result = .ok ∧
    (resetPassword hash now email code newPw (some r) (some u)).resetStore = none ∧
    (login hash now2 email oldPw
      (resetPassword hash now email code newPw (some r) (some u)).userStore).result
      = .invalidCredentials ∧
    ((login hash now2 email newPw
      (resetPassword hash now email code newPw (some r) (some u)).userStore).result).isOk
      = true ∧
    (resetPassword hash now email code newPw
      (resetPassword hash now email code newPw (some r) (some u)).resetStore
      (resetPassword hash now email code newPw (some r) (some u)).userStore).result
      = .codeNotFound := by
  have hpne : newPw ≠ "" := by
    intro hempty
    rw [hempty] at hlen
    exact hlen (by decide)
  have h5n : ¬ r.attempts ≥ 5 := by omega
  have hout : resetPassword hash now email code newPw (some r) (some u)
      = ⟨.ok, none, some { u with passwordHash := hash newPw },
          some ⟨u.id, u.email, u.name, none, now, now + sessionTtlMs⟩⟩ := by
    simp [resetPassword, he, hc, hpne, hlen, h5n, hexp, hmatch]
  rw [hout]
  have hm2 : hash oldPw ≠ ({ u with passwordHash := hash newPw } : User).passwordHash := by
    simpa using fun hcontra => hnocol hcontra.symm
  refine ⟨rfl, rfl, ?_, ?_, ?_⟩
  · simp [login, he, holdPw, hverified, hm2]
  · exact login_ok_of_correct hash now2 email newPw _ he hpne hverified rfl
  · simp [resetPassword, he, hc, hpne, hlen]

/-- Witness for C4 on concrete records (`hash` instantiated with the
identity function, old password `"oldpass1"`, new password `"newpass1"`). -/
theorem reset_password_rotates_witness :
    (resetPassword (fun s => s) 500 "ana@x.com" "123456" "newpass1"
      (some ⟨"123456", "ana@x.com", 1000, 0⟩)
      (some ⟨"id1", "Ana", "ana@x.com", "82", "oldpass1", true, some .cliente, "t"⟩)).result
      = .ok ∧
    (resetPassword (fun s => s) 500 "ana@x.com" "123456" "newpass1"
      (some ⟨"123456", "ana@x.com", 1000, 0⟩)
      (some ⟨"id1", "Ana", "ana@x.com", "82", "oldpass1", true, some .cliente, "t"⟩)).resetStore
      = none ∧
    (login (fun s => s) 0 "ana@x.com" "oldpass1"
      (resetPassword (fun s => s) 500 "ana@x.com" "123456" "newpass1"
        (some ⟨"123456", "ana@x.com", 1000, 0⟩)
        (some ⟨"id1", "Ana", "ana@x.com", "82", "oldpass1", true, some .cliente, "t"⟩)).userStore).result
      = .invalidCredentials ∧
    ((login (fun s => s) 0 "ana@x.com" "newpass1"
      (resetPassword (fun s => s) 500 "ana@x.com" "123456" "newpass1"
        (some ⟨"123456", "ana@x.com", 1000, 0⟩)
        (some ⟨"id1", "Ana", "ana@x.com", "82", "oldpass1", true, some .cliente, "t"⟩)).userStore).result).isOk
      = true ∧
    (resetPassword (fun s => s) 500 "ana@x.com" "123456" "newpass1"
      (resetPassword (fun s => s) 500 "ana@x.com" "123456" "newpass1"
        (some ⟨"123456", "ana@x.com", 1000, 0⟩)
        (some ⟨"id1", "Ana", "ana@x.com", "82", "oldpass1", true, some .cliente, "t"⟩)).resetStore
      (resetPassword (fun s => s) 500 "ana@x.com" "123456" "newpass1"
        (some ⟨"123456", "ana@x.com", 1000, 0⟩)
        (some ⟨"id1", "Ana", "ana@x.com", "82", "oldpass1", true, some .cliente, "t"⟩)).userStore).result
      = .codeNotFound :=
  reset_password_rotates_credential (fun s => s) 500 0 "ana@x.com" "123456" "newpass1"
    "oldpass1" ⟨"123456", "ana@x.com", 1000, 0⟩
    ⟨"id1", "Ana", "ana@x.com", "82", "oldpass1", true, some .cliente, "t"⟩
    (by decide) (by decide) (by decide) (by decide) (by decide) (by decide) (by decide)
    (by decide) (by decide) (by decide)

/-! ## C6: trimming of the submitted code -/

/-- **C6 counterexample.**  The claim says BOTH verify variants compare the
submitted code after trimming whitespace.  The password-reset variant does
not trim: with stored code `"123456"` and submitted `" 123456"`
(`" 123456".trim() == "123456"`, record present, unexpired, `attempts = 0`),
`resetPassword` fails with `CodeMismatch` and burns an attempt instead of
succeeding. -/
theorem reset_code_not_trimmed_counterexample :
    jsTrim " 123456" = "123456" ∧
    (resetPassword (fun s => s) 500 "ana@x.com" " 123456" "newpass1"
      (some ⟨"123456", "ana@x.com", 1000, 0⟩) (some sampleVerifiedUser)).result
      = .codeMismatch 4 ∧
    (resetPassword (fun s => s) 500 "ana@x.com" " 123456" "newpass1"
      (some ⟨"123456", "ana@x.com", 1000, 0⟩) (some sampleVerifiedUser)).result
      ≠ .ok := by
  refine ⟨by decide, by decide, by decide⟩

/-- **C6 (amended).**  Only the registration-OTP variant trims the submitted
code before comparing (`otpData.code !== data.code.trim()`); the
password-reset variant compares the submitted code verbatim
(`resetData.code !== data.code`).  In both variants a mismatch increments
`attempts`, persists the record, and reports remaining attempts
`= 5 - attempts` (with `attempts` the incremented count). -/
theorem code_comparison_trim_and_attempt_accounting :
    (∀ (now : Nat) (email code : String) (o : OTPData) (user : Option User),
      email ≠ "" → code ≠ "" → o.attempts < 5 → ¬ now > o.expiresAt →
      o.code ≠ jsTrim code →
      verifyOtp now email code (some o) user
        = ⟨.codeMismatch (5 - (o.attempts + 1)),
            some { o with attempts := o.attempts + 1 }, user, none⟩)
    ∧ (∀ (now : Nat) (email code : String) (o : OTPData) (u : User),
      email ≠ "" → code ≠ "" → o.attempts < 5 → ¬ now > o.expiresAt →
      o.code = jsTrim code →
      (verifyOtp now email code (some o) (some u)).result = .verified)
    ∧ (∀ (hash : String → String) (now : Nat) (email code newPw : String)
        (r : PasswordResetData) (user : Option User),
      email ≠ "" → code ≠ "" → newPw ≠ "" → ¬ newPw.length < 6 →
      r.attempts < 5 → ¬ now > r.expiresAt → r.code ≠ code →
      resetPassword hash now email code newPw (some r) user
        = ⟨.codeMismatch (5 - (r.attempts + 1)),
            some { r with attempts := r.attempts + 1 }, user, none⟩)
    ∧ (∀ (hash : String → String) (now : Nat) (email code newPw : String)
        (r : PasswordResetData) (u : User),
      email ≠ "" → code ≠ "" → newPw ≠ "" → ¬ newPw.length < 6 →
      r.attempts < 5 → ¬ now > r.expiresAt → r.code = code →
      (resetPassword hash now email code newPw (some r) (some u)).result = .ok) := by
  refine ⟨?_, ?_, ?_, ?_⟩
  · intro now email code o user he hc h5 hexp hmm
    have h5n : ¬ o.attempts ≥ 5 := by omega
    simp [verifyOtp, he, hc, h5n, hexp, hmm]
  · intro now email code o u he hc h5 hexp hcode
    have h5n : ¬ o.attempts ≥ 5 := by omega
    simp [verifyOtp, he, hc, h5n, hexp, hcode]
  · intro hash now email code newPw r user he hc hp hlen h5 hexp hmm
    have h5n : ¬ r.attempts ≥ 5 := by omega
    simp [resetPassword, he, hc, hp, hlen, h5n, hexp, hmm]
  · intro hash now email code newPw r u he hc hp hlen h5 hexp hcode
    have h5n : ¬ r.attempts ≥ 5 := by omega
    simp [resetPassword, he, hc, hp, hlen, h5n, hexp, hcode]

/-- Witness for C6 (amended): the OTP variant accepts `" 123456"` against
stored `"123456"` after trimming, while the reset variant reports a mismatch
for the same input, incrementing attempts. -/
theorem code_comparison_trim_witness :
    (verifyOtp 500 "ana@x.com" " 123456" (some sampleFreshOtp)
      (some sampleUnverifiedUser)).result = .verified ∧
    resetPassword (fun s => s) 500 "ana@x.com" "999999" "newpass1"
      (some ⟨"123456", "ana@x.com", 1000, 0⟩) (some sampleVerifiedUser)
      = ⟨.codeMismatch 4, some ⟨"123456", "ana@x.com", 1000, 1⟩,
          some sampleVerifiedUser, none⟩ ∧
    verifyOtp 500 "ana@x.com" "999999" (some sampleFreshOtp) (some sampleUnverifiedUser)
      = ⟨.codeMismatch 4, some ⟨"123456", "ana@x.com", 1000, 1⟩,
          some sampleUnverifiedUser, none⟩ :=
  ⟨code_comparison_trim_and_attempt_accounting.2.1 500 "ana@x.com" " 123456"
      sampleFreshOtp sampleUnverifiedUser (by decide) (by decide) (by decide) (by decide)
      (by decide),
   code_comparison_trim_and_attempt_accounting.2.2.1 (fun s => s) 500 "ana@x.com"
      "999999" "newpass1" ⟨"123456", "ana@x.com", 1000, 0⟩ (some sampleVerifiedUser)
      (by decide) (by decide) (by decide) (by decide) (by decide) (by decide) (by decide),
   code_comparison_trim_and_attempt_accounting.1 500 "ana@x.com" "999999"
      sampleFreshOtp (some sampleUnverifiedUser) (by decide) (by decide) (by decide)
      (by decide) (by decide)⟩

/-! ## C10: registration persists before email dispatch -/

/-- **C10.**  With valid inputs and no verified user already registered,
`register` writes the user record (`verified = false`) and the OTP record
(`attempts = 0`, TTL 10 min) to the stores BEFORE attempting email dispatch;
when dispatch fails the handler returns an error, yet both records remain
stored — the store contents are identical to the successful-dispatch case. -/
theorem register_persists_records_despite_email_failure
    (hash : String → String) (now : Nat)
    (userId otpCode createdAtISO : String)
    (name email phone password : String)
    (existingUser : Option User) (existingOtp : Option OTPData)
    (hn : name ≠ "") (he : email ≠ "") (hph : phone ≠ "") (hpw : password ≠ "")
    (hre : emailRegexTest email = true) (hlen : ¬ password.length < 6)
    (hnotreg : (match existingUser with
                | some eu => eu.verified
                | none => false) = false) :
    (register hash now userId otpCode createdAtISO false name email phone password
        existingUser existingOtp).result = .emailSendFailed ∧
    (∃ u, (register hash now userId otpCode createdAtISO false name email phone password
        existingUser existingOtp).userStore = some u ∧
      u.verified = false ∧ u.passwordHash = hash password ∧
      u.email = normalizeEmail email) ∧
    (∃ o, (register hash now userId otpCode createdAtISO false name email phone password
        existingUser existingOtp).otpStore = some o ∧
      o.code = otpCode ∧ o.attempts = 0 ∧ o.expiresAt = now + 10 * 60 * 1000) ∧
    (register hash now userId otpCode createdAtISO false name email phone password
        existingUser existingOtp).userStore
      = (register hash now userId otpCode createdAtISO true name email phone password
        existingUser existingOtp).userStore ∧
    (register hash now userId otpCode createdAtISO false name email phone password
        existingUser existingOtp).otpStore
      = (register hash now userId otpCode createdAtISO true name email phone password
        existingUser existingOtp).otpStore := by
  have hfail : register hash now userId otpCode createdAtISO false name email phone
      password existingUser existingOtp
      = ⟨.emailSendFailed,
          some ⟨userId, jsTrim name, normalizeEmail email, jsTrim phone, hash password,
            false,
            some (if INITIAL_ADMIN_EMAILS.any
                (fun adminEmail => jsTrim (jsToLowerCase adminEmail) == normalizeEmail email)
              then .administrador else .cliente), createdAtISO⟩,
          some ⟨otpCode, normalizeEmail email, now + 10 * 60 * 1000, 0⟩⟩ := by
    simp [register, hn, he, hph, hpw, hre, hlen, hnotreg]
  have hok : register hash now userId otpCode createdAtISO true name email phone
      password existingUser existingOtp
      = ⟨.ok,
          some ⟨userId, jsTrim name, normalizeEmail email, jsTrim phone, hash password,
            false,
            some (if INITIAL_ADMIN_EMAILS.any
                (fun adminEmail => jsTrim (jsToLowerCase adminEmail) == normalizeEmail email)
              then .administrador else .cliente), createdAtISO⟩,
          some ⟨otpCode, normalizeEmail email, now + 10 * 60 * 1000, 0⟩⟩ := by
    simp [register, hn, he, hph, hpw, hre, hlen, hnotreg]
  rw [hfail, hok]
  exact ⟨rfl, ⟨_, rfl, rfl, rfl, rfl⟩, ⟨_, rfl, rfl, rfl, rfl⟩, rfl, rfl⟩

/-- Witness for C10 on a concrete registration whose email dispatch fails. -/
theorem register_persists_records_witness :
    (register (fun s => s) 0 "uid" "123456" "iso" false "Ana" "ana@x.com" "82"
        "secret1" none none).result = .emailSendFailed ∧
    (∃ u, (register (fun s => s) 0 "uid" "123456" "iso" false "Ana" "ana@x.com" "82"
        "secret1" none none).userStore = some u ∧
      u.verified = false ∧ u.passwordHash = (fun s => s) "secret1" ∧
      u.email = normalizeEmail "ana@x.com") ∧
    (∃ o, (register (fun s => s) 0 "uid" "123456" "iso" false "Ana" "ana@x.com" "82"
        "secret1" none none).otpStore = some o ∧
      o.code = "123456" ∧ o.attempts = 0 ∧ o.expiresAt = 0 + 10 * 60 * 1000) ∧
    (register (fun s => s) 0 "uid" "123456" "iso" false "Ana" "ana@x.com" "82"
        "secret1" none none).userStore
      = (register (fun s => s) 0 "uid" "123456" "iso" true "Ana" "ana@x.com" "82"
        "secret1" none none).userStore ∧
    (register (fun s => s) 0 "uid" "123456" "iso" false "Ana" "ana@x.com" "82"
        "secret1" none none).otpStore
      = (register (fun s => s) 0 "uid" "123456" "iso" true "Ana" "ana@x.com" "82"
        "secret1" none none).otpStore :=
  register_persists_records_despite_email_failure (fun s => s) 0 "uid" "123456" "iso"
    "Ana" "ana@x.com" "82" "secret1" none none
    (by decide) (by decide) (by decide) (by decide) (by decide) (by decide) (by decide)

end Ayronia
